import Mathlib

/-!
Shallow embedding of the meerasanj/ecommerce-analysis SQL Query Assistant:
`src/app.py`, `src/utils/sql_parser.py`, `src/utils/llm_integration.py`
and `src/utils/schema_manager.py`, together with theorems settling the
specification claims about it.

Python strings are modelled as Lean `String` / `List Char` (ASCII case
mapping); the external SQL parsing library (sqlglot) and the LLM backend
are modelled as explicit function parameters, following the boundary the
specification itself draws around them.
-/

namespace EcommerceAnalysis

/-! ## Python string primitives -/

/-- ASCII lower-casing of one character, as Python `str.lower` acts on
ASCII input. -/
def lowChar (c : Char) : Char :=
  if 'A' ≤ c ∧ c ≤ 'Z' then Char.ofNat (c.toNat + 32) else c

/-- ASCII upper-casing of one character, as Python `str.upper` acts on
ASCII input. -/
def upChar (c : Char) : Char :=
  if 'a' ≤ c ∧ c ≤ 'z' then Char.ofNat (c.toNat - 32) else c

/-- The character list of `s.upper()`. -/
def upperList (s : String) : List Char := s.data.map upChar

/-- Whether `s` starts with the pattern `pat` (Python `str.startswith`). -/
def starts (pat s : List Char) : Bool := s.take pat.length == pat

/-- Whether `s` ends with the pattern `pat` (Python `str.endswith`). -/
def listEnds (pat s : List Char) : Bool := s.drop (s.length - pat.length) == pat

/-- Whether `pat` occurs as a contiguous substring of `s`
(Python `pat in s`), for a non-empty pattern. -/
def containsSub (pat : List Char) : List Char → Bool
  | [] => pat.isEmpty
  | c :: rest => starts pat (c :: rest) || containsSub pat rest

/-- Helper for `pyCount`: the fuel bounds the number of scanning steps and
is always at least the length of the remaining list, so it never runs out;
each step either consumes the matched pattern or advances one character. -/
def pyCountAux (pat : List Char) : Nat → List Char → Nat
  | 0, _ => 0
  | _, [] => 0
  | fuel + 1, c :: rest =>
      if starts pat (c :: rest) && !pat.isEmpty then
        1 + pyCountAux pat fuel (List.drop (pat.length - 1) rest)
      else
        pyCountAux pat fuel rest

/-- Number of non-overlapping occurrences of `pat` in `s`, scanning left to
right (Python `str.count`), for a non-empty pattern. -/
def pyCount (pat : List Char) (s : List Char) : Nat :=
  pyCountAux pat s.length s

/-- Python whitespace characters stripped by `str.strip()` (ASCII part). -/
def isPyWs (c : Char) : Bool :=
  c = ' ' || c = '\t' || c = '\n' || c = '\r' || c = Char.ofNat 11 || c = Char.ofNat 12

/-- Python `str.strip()` on a character list: drop whitespace from both
ends. -/
def stripList (s : List Char) : List Char :=
  ((s.dropWhile isPyWs).reverse.dropWhile isPyWs).reverse

/-- Python `str.strip()`. -/
def pyStrip (s : String) : String := ⟨stripList s.data⟩

/-- A character list neither begins nor ends with Python whitespace. -/
def noSurroundingWs (s : List Char) : Bool :=
  s.head?.all (fun c => !isPyWs c) && s.reverse.head?.all (fun c => !isPyWs c)

/-! ## The external SQL parsing capability

The spec scopes the parsing engine (sqlglot) out as a black box:
`parse(query, dialect) -> AST | SyntaxError`.  We model it as a function
from a query and an optional dialect (`none` is the dialect-agnostic mode
of `parse_one(query)` / `read=None`) to either success or an error
message, and every definition that calls the parser takes it as an
explicit argument. -/

/-- Outcome of one call of the external parser: success, or a syntax
error carrying the diagnostic message. -/
abbrev ParseFn := String → Option String → Except String Unit

/-- Whether a parse attempt succeeded. -/
def parseOk (p : ParseFn) (q : String) (d : Option String) : Bool :=
  (p q d).toBool

/-! ## src/app.py -/

/-- Embeds `detect_sql_dialect` (src/app.py lines 17-28).  The body first
evaluates `parse_one(query).sql(dialect=None)` inside the outer `try`;
any exception there is caught and the function returns `"Generic"`.  Only
when that dialect-agnostic attempt succeeds does it iterate the fixed
ordered registry `dialects.Dialect.classes` (modelled by the parameter
`cands`), returning the first dialect name under which
`parse_one(query, read=d)` succeeds, and `"Generic"` when the loop is
exhausted. -/
def detect_sql_dialect (p : ParseFn) (cands : List String) (query : String) : String :=
  if parseOk p query none then
    match cands.find? (fun d => parseOk p query (some d)) with
    | some d => d
    | none => "Generic"
  else
    "Generic"

/-- Embeds `rate_query_complexity` (src/app.py lines 31-43).  All counts
and membership tests are over `query.upper()`; the subquery credit
`min(count(SELECT) - 1, 2)` is integer arithmetic and can be negative. -/
def rate_query_complexity (query : String) : Int :=
  let u := upperList query
  let complexity : Int := 1
  let complexity := complexity + min (pyCount "JOIN".data u : Int) 2
  let complexity := complexity + min ((pyCount "SELECT".data u : Int) - 1) 2
  let complexity := complexity +
    (if ["OVER(".data, "PARTITION BY".data, "ROW_NUMBER()".data].any
        (fun fn => containsSub fn u) then 1 else 0)
  let complexity := complexity +
    (if ["HAVING".data, "WITH".data, "RECURSIVE".data].any
        (fun cl => containsSub cl u) then 1 else 0)
  min (max complexity 1) 5

/-- Embeds `validate_query` (src/app.py lines 46-51): attempt
`parse_one(query, read=dialect)`; on success return `(True, None)`, on an
exception return `(False, str(e))`. -/
def validate_query (p : ParseFn) (query dialect : String) : Bool × Option String :=
  match p query (some dialect) with
  | Except.ok _ => (true, none)
  | Except.error e => (false, some e)

/-- Embeds the fence clean-up of `correct_sql` (src/app.py line 102):
`re.sub(r'^\x60\x60\x60sql|\x60\x60\x60$', '', corrected, flags=re.IGNORECASE)`.
The first alternative can only match at position 0 (anchored `^`, no
MULTILINE) and removes a leading three-backtick fence followed by the tag
`sql` in any case; the second removes one trailing three-backtick fence
sitting at the end of the string or immediately before a final newline
(Python `$` semantics).  The two matches cannot overlap because the
scan resumes after the consumed prefix. -/
def fenceSub (s : List Char) : List Char :=
  let s1 := if (s.take 6).map lowChar == "```sql".data then s.drop 6 else s
  if listEnds "```".data s1 then
    s1.take (s1.length - 3)
  else if listEnds "```\n".data s1 then
    s1.take (s1.length - 4) ++ ['\n']
  else
    s1

/-- Embeds `correct_sql` (src/app.py lines 89-103): the raw LLM response
(the external backend is the parameter `llm`, applied to the constructed
prompt) is cleaned with the fence regex and then `.strip()`. -/
def correct_sql (llm : String → String) (query error dialect intent : String) : String :=
  let prompt :=
    "\n    Correct this " ++ dialect ++
    " SQL query. Return ONLY the corrected SQL with no additional text.\n    \n    Original query: "
    ++ query ++ "\n    \n    Error: " ++ error ++
    "\n    \n    The query is intended to: " ++ intent ++ "\n    "
  let corrected := llm prompt
  pyStrip ⟨fenceSub corrected.data⟩

/-! ## src/utils/sql_parser.py -/

/-- Embeds `validate_sql` (src/utils/sql_parser.py lines 6-11): identical
try/except around `parse_one(query, read=dialect)`, with the dialect
defaulting to `None`. -/
def validate_sql (p : ParseFn) (query : String)
    (dialect : Option String := none) : Bool × Option String :=
  match p query dialect with
  | Except.ok _ => (true, none)
  | Except.error e => (false, some e)

/-! ## src/utils/llm_integration.py -/

/-- Process environment: variable name to optional value. -/
abbrev Env := String → Option String

/-- The shape of the object returned by the external
`client.chat_completion` call, as discriminated by `get_llm_response`:
a dict with a `choices` entry, a plain string, or anything else. -/
inductive LlmResp where
  | withChoices (content : String)
  | plain (s : String)
  | other
deriving DecidableEq

/-- Embeds the response extraction at the end of `get_llm_response`
(src/utils/llm_integration.py lines 22-28). -/
def extractContent : LlmResp → String
  | LlmResp.withChoices content => content
  | LlmResp.plain s => s
  | LlmResp.other => "Sorry, I could not process that request."

/-- Embeds `get_llm_response` (src/utils/llm_integration.py lines 8-28).
`os.getenv("HF_TOKEN")` is read inside the function body on every call;
when it is absent the call raises
`ValueError("Hugging Face token not found in environment variables")`.
The network call is the external parameter `call` (model name, prompt). -/
def get_llm_response (env : Env) (call : String → String → LlmResp)
    (prompt : String)
    (model : String := "meta-llama/Meta-Llama-3-70B-Instruct") :
    Except String String :=
  match env "HF_TOKEN" with
  | none => Except.error "Hugging Face token not found in environment variables"
  | some _ => Except.ok (extractContent (call model prompt))

/-- Embeds the import-time (startup) behaviour of
src/utils/llm_integration.py: the module body only runs `load_dotenv()`
(modelled by the parameter `dotenv`, which merges `.env` entries into the
process environment) and defines the function.  No credential is read or
checked at startup, so module initialisation never fails. -/
def llm_module_startup (dotenv : Env → Env) (env : Env) : Except String Env :=
  Except.ok (dotenv env)

/-! ## src/utils/schema_manager.py

The manager keeps the uploaded tables in `st.session_state.tables`
(a Python dict, modelled as an insertion-ordered association list) and
mirrors each one as `<table_name>.parquet` in the fixed cache directory
`schema_cache` (modelled as an association list of file names in that
directory, paired with their contents, plus a flag for the existence of
the directory itself). -/

/-- Tabular content of a pandas DataFrame; its internals are external to
the manager, which only stores and retrieves it whole. -/
abbrev Df := List (List String)

/-- An uploaded CSV file: its name, and the outcome of `pd.read_csv` on
its contents (`Except.error` models a raised parse error on malformed
CSV). -/
structure UploadedFile where
  name : String
  csv : Except String Df

/-- The state touched by `SchemaManager`: the in-memory session tables
and the on-disk cache directory. -/
structure SMState where
  tables : List (String × Df)
  cacheFiles : List (String × Df)
  dirExists : Bool
deriving DecidableEq

/-- Python dict assignment `d[k] = v`: replace the value in place when
the key exists, append otherwise. -/
def updateAssoc (k : String) (v : Df) : List (String × Df) → List (String × Df)
  | [] => [(k, v)]
  | (k', v') :: rest =>
      if k' = k then (k, v) :: rest else (k', v') :: updateAssoc k v rest

/-- Embeds `SchemaManager._get_table_name` (src/utils/schema_manager.py
lines 13-16) as the source evaluates: the module imports `pandas`,
`streamlit`, `os` and `hashlib` but never imports `re`, so the call
`re.sub(...)` in the body raises `NameError: name re is not defined`
before any name is produced. -/
def get_table_name (_fileName : String) : Except String String :=
  Except.error "NameError: name re is not defined"

/-- Everything of `fileName` before its last dot (`os.path.splitext`
root), or the whole name when it has no dot. -/
def rootName (s : List Char) : List Char :=
  match s.reverse.dropWhile (fun c => c ≠ '.') with
  | [] => s
  | _ :: rest => rest.reverse

/-- One step of the regex substitution in `_get_table_name`: characters
outside `[a-zA-Z0-9_]` become underscores. -/
def subNonAlnum (c : Char) : Char :=
  if ('a' ≤ c ∧ c ≤ 'z') ∨ ('A' ≤ c ∧ c ≤ 'Z') ∨ ('0' ≤ c ∧ c ≤ '9') ∨ c = '_'
  then c else '_'

/-- Modelled from the spec: the intended `_get_table_name` (§3: table
name derived deterministically from the uploaded file name, extension
dropped, non-alphanumeric characters collapsed to underscore,
lower-cased), i.e. the body of `_get_table_name` as it would run with
`re` imported. -/
def get_table_name_fixed (fileName : String) : String :=
  ⟨((rootName fileName.data).map subNonAlnum).map lowChar⟩

/-- Embeds `SchemaManager.add_table` (src/utils/schema_manager.py lines
23-36) as the source evaluates.  `_get_table_name` is called before the
`try` block, so the `NameError` it raises propagates out of `add_table`
uncaught and no state is touched.  The remaining branches embed the rest
of the body: a `read_csv` failure is caught (the error is only shown)
and changes nothing; on success `df.to_parquet(cache_path)` runs first
and then the dict entry is stored. -/
def add_table (st : SMState) (f : UploadedFile) : SMState × Except String Unit :=
  match get_table_name f.name with
  | Except.error e => (st, Except.error e)
  | Except.ok tname =>
      match f.csv with
      | Except.error _ => (st, Except.ok ())
      | Except.ok df =>
          ({ st with
              cacheFiles := updateAssoc (tname ++ ".parquet") df st.cacheFiles,
              tables := updateAssoc tname df st.tables },
           Except.ok ())

/-- Modelled from the spec: `add_table` as intended (with `re` imported),
using the derived table name of `get_table_name_fixed`; otherwise the
body is identical to `add_table`. -/
def add_table_fixed (st : SMState) (f : UploadedFile) : SMState :=
  match f.csv with
  | Except.error _ => st
  | Except.ok df =>
      let tname := get_table_name_fixed f.name
      { st with
          cacheFiles := updateAssoc (tname ++ ".parquet") df st.cacheFiles,
          tables := updateAssoc tname df st.tables }

/-- Embeds `SchemaManager.get_schema` (src/utils/schema_manager.py lines
39-42): the session tables, or an empty mapping when none were stored. -/
def get_schema (st : SMState) : List (String × Df) := st.tables

/-- Embeds `SchemaManager.clear_all` (src/utils/schema_manager.py lines
45-52): delete the session tables entry, then `os.remove` every file of
the cache directory whose name ends with `.parquet`.  Nothing else is
touched: other files stay, and the directory itself is not removed. -/
def clear_all (st : SMState) : SMState :=
  { tables := [],
    cacheFiles := st.cacheFiles.filter (fun f => !listEnds ".parquet".data f.1.data),
    dirExists := st.dirExists }

/-! ## The orchestrator (`main`, src/app.py lines 125-283)

For the temporal claim we record the pipeline steps each button handler
performs on a submitted query as an event trace.  External outcomes (the
parser, whether a schema is loaded, whether execution fails) are
parameters. -/

/-- One observable pipeline step on a query. -/
inductive Event where
  | validated (q : String) (ok : Bool)
  | executed (q : String)
  | explained (q : String)
  | corrected (q : String)
deriving DecidableEq

/-- The dialect used for a run: the selectbox value, or the detector
result under "Auto-detect" (src/app.py lines 196-198 and 253-255). -/
def resolveDialect (p : ParseFn) (cands : List String) (choice query : String) : String :=
  if choice = "Auto-detect" then detect_sql_dialect p cands query else choice

/-- Trace of the tab-1 "Analyze Query" handler (src/app.py lines 190-234)
on one submitted query: empty-input guard, dialect resolution, syntax
validation, then either execution (only when a schema is loaded) or the
explanation/correction path. -/
def analyze_trace (p : ParseFn) (cands : List String) (schemaLoaded : Bool)
    (query choice : String) : List Event :=
  if pyStrip query = "" then []
  else
    let dialect := resolveDialect p cands choice query
    if (validate_query p query dialect).1 then
      Event.validated query true ::
        (if schemaLoaded then [Event.executed query] else [])
    else
      [Event.validated query false, Event.explained query, Event.corrected query]

/-- Trace of the tab-2 "Validate Query" handler (src/app.py lines
237-283): requires a loaded schema, guards empty input, validates syntax
first and returns on failure, then executes against the data; an
execution failure leads to explanation and correction. -/
def validation_trace (p : ParseFn) (cands : List String)
    (schemaLoaded execFails : Bool) (query choice : String) : List Event :=
  if !schemaLoaded then []
  else if pyStrip query = "" then []
  else
    let dialect := resolveDialect p cands choice query
    if !(validate_query p query dialect).1 then
      [Event.validated query false]
    else
      Event.validated query true :: Event.executed query ::
        (if execFails then [Event.explained query, Event.corrected query] else [])

/-- Checks that along a trace every `executed q` event is preceded by a
`validated q true` event: `seen` accumulates the queries validated so
far. -/
def execAfterValidation (seen : List String) : List Event → Bool
  | [] => true
  | Event.validated q true :: rest => execAfterValidation (q :: seen) rest
  | Event.executed q :: rest => seen.contains q && execAfterValidation seen rest
  | _ :: rest => execAfterValidation seen rest

/-! ## Specification-side reference definitions -/

/-- Clamp `x` into the interval `[lo, hi]`. -/
def clamp (lo hi x : Int) : Int := min (max x lo) hi

/-- The reference complexity formula as the spec words it (§4.3): start
at 1, add the capped JOIN count, add the capped extra-SELECT count, add 1
for a window-function keyword, add 1 for a complex clause keyword, all
case-insensitively, and clamp the final score to `[1, 5]`. -/
def spec_complexity (query : String) : Int :=
  let u := upperList query
  clamp 1 5
    (1 + min (pyCount "JOIN".data u : Int) 2
       + min ((pyCount "SELECT".data u : Int) - 1) 2
       + (if containsSub "OVER(".data u || containsSub "PARTITION BY".data u
             || containsSub "ROW_NUMBER()".data u then 1 else 0)
       + (if containsSub "HAVING".data u || containsSub "WITH".data u
             || containsSub "RECURSIVE".data u then 1 else 0))

/-- The six Deep-Analysis Trigger keywords of spec §4.4. -/
def deepKeywords : List (List Char) :=
  ["HAVING".data, "GROUP BY".data, "JOIN".data, "WHERE".data, "WITH".data, "CASE".data]

/-- Modelled from the spec: the Deep-Analysis Trigger of §4.4, a
component of this repository that is not present under src/ (src/ holds
only one of the two app variants the spec describes).  Per the spec it is
a pure predicate: true iff the query text contains, case-insensitively,
one of `deepKeywords`. -/
def should_do_deep_analysis (query : String) : Bool :=
  deepKeywords.any (fun kw => containsSub kw (upperList query))

/-- First element of `cands`, in order, under which the parser accepts
`q`. -/
def firstParsing (p : ParseFn) (q : String) : List String → Option String
  | [] => none
  | d :: ds => if parseOk p q (some d) then some d else firstParsing p q ds

/-- The dialect detector as amended from the source: when the initial
dialect-agnostic parse fails the result is `"Generic"` immediately,
without consulting any candidate; otherwise the result is the first
candidate dialect that parses, and `"Generic"` when none does. -/
def detect_spec (p : ParseFn) (cands : List String) (q : String) : String :=
  if parseOk p q none = false then "Generic"
  else
    match firstParsing p q cands with
    | some d => d
    | none => "Generic"

/-! ## Concrete instances of the external capabilities

Each oracle below is one concrete behaviour of an external collaborator,
used to evaluate the embedded functions at specific inputs. -/

/-- Modelled from the spec: one behaviour of the external parsing
capability (§6: `parse(query, dialect) -> AST | SyntaxError`, required to
accept valid SQL).  This oracle accepts exactly the statement
`UPDATE t SET a = 1` — a syntactically valid query that a SQL parser
accepts in any dialect although its text contains neither SELECT nor
FROM — and reports a parse error on every other input. -/
def updateOnlyParse : ParseFn := fun q _ =>
  if q = "UPDATE t SET a = 1" then Except.ok () else Except.error "ParseError"

/-- Modelled from the spec: one behaviour of the external parsing
capability in which dialects differ on surface syntax (§4.1, §6).  The
query `SELECT x FROM t` written with MySQL backquoted identifiers parses
under the mysql dialect but is rejected by the dialect-agnostic mode and
every other dialect. -/
def mysqlOnlyParse : ParseFn := fun q d =>
  if q = "SELECT `x` FROM t" ∧ d = some "mysql" then Except.ok ()
  else Except.error "ParseError"

/-- Modelled from the spec: a parsing-capability behaviour that accepts
every query in every mode. -/
def alwaysParse : ParseFn := fun _ _ => Except.ok ()

/-- An environment holding no variables at all. -/
def emptyEnv : Env := fun _ => none

/-- A fresh `SchemaManager` state: no session tables, an empty but
existing `schema_cache` directory. -/
def emptySM : SMState := ⟨[], [], true⟩

/-- A well-formed uploaded CSV file named `sales.csv`. -/
def salesCsv : UploadedFile := ⟨"sales.csv", Except.ok [["amount"], ["3"]]⟩

/-- A well-formed uploaded CSV file named `orders.csv`. -/
def ordersCsv : UploadedFile := ⟨"orders.csv", Except.ok [["id"], ["7"]]⟩

/-! ## Supporting lemmas -/

theorem head?_dropWhile_all (p : Char → Bool) (l : List Char) :
    ((l.dropWhile p).head?.all fun c => !p c) = true := by
  induction l with
  | nil => rfl
  | cons c rest ih =>
      by_cases h : p c = true
      · simpa [List.dropWhile_cons, h] using ih
      · simp [List.dropWhile_cons, h]

theorem stripList_noWs (s : List Char) : noSurroundingWs (stripList s) = true := by
  unfold stripList noSurroundingWs
  set a := s.dropWhile isPyWs with ha
  set b := a.reverse.dropWhile isPyWs with hb
  rw [Bool.and_eq_true]
  refine ⟨?_, ?_⟩
  · rw [List.head?_reverse]
    rcases hbe : b with _ | ⟨c, rest⟩
    · rfl
    · have hsuf : b <:+ a.reverse := hb ▸ List.dropWhile_suffix isPyWs
      rcases hsuf with ⟨u, hu⟩
      have hlast : b.getLast? = a.reverse.getLast? := by
        rw [← hu, List.getLast?_append_of_ne_nil]
        rw [hbe]; exact List.cons_ne_nil _ _
      rw [hbe] at hlast
      rw [hlast, List.getLast?_reverse]
      simpa using head?_dropWhile_all isPyWs s
  · rw [List.reverse_reverse]
    exact head?_dropWhile_all isPyWs a.reverse

theorem find?_eq_firstParsing (p : ParseFn) (q : String) (cands : List String) :
    cands.find? (fun d => parseOk p q (some d)) = firstParsing p q cands := by
  induction cands with
  | nil => rfl
  | cons d ds ih =>
      by_cases h : parseOk p q (some d) = true
      · simp [List.find?, firstParsing, h]
      · simp only [Bool.not_eq_true] at h
        simpa [List.find?, firstParsing, h] using ih

theorem self_mem_updateAssoc (k : String) (v : Df) (l : List (String × Df)) :
    (k, v) ∈ updateAssoc k v l := by
  induction l with
  | nil => simp [updateAssoc]
  | cons kv rest ih =>
      obtain ⟨k', v'⟩ := kv
      by_cases h : k' = k
      · simp [updateAssoc, h]
      · simp only [updateAssoc, h, if_neg, not_false_iff, List.mem_cons]
        exact Or.inr ih

theorem mem_updateAssoc (k : String) (v : Df) (l : List (String × Df)) (x : String × Df) :
    x ∈ updateAssoc k v l → x = (k, v) ∨ x ∈ l := by
  induction l with
  | nil => intro hx; simpa [updateAssoc] using hx
  | cons kv rest ih =>
      obtain ⟨k', v'⟩ := kv
      intro hx
      by_cases h : k' = k
      · rw [updateAssoc, if_pos h] at hx
        rcases List.mem_cons.mp hx with h1 | h2
        · exact Or.inl h1
        · exact Or.inr (List.mem_cons_of_mem _ h2)
      · rw [updateAssoc, if_neg h] at hx
        rcases List.mem_cons.mp hx with h1 | h2
        · exact Or.inr (h1 ▸ List.mem_cons_self _ _)
        · rcases ih h2 with h3 | h4
          · exact Or.inl h3
          · exact Or.inr (List.mem_cons_of_mem _ h4)

theorem mem_updateAssoc_of_ne (k : String) (v : Df) (l : List (String × Df))
    (x : String × Df) (hx : x ∈ l) (hne : x.1 ≠ k) : x ∈ updateAssoc k v l := by
  induction l with
  | nil => cases hx
  | cons kv rest ih =>
      obtain ⟨k', v'⟩ := kv
      rcases List.mem_cons.mp hx with h1 | h2
      · subst h1
        have hne' : k' ≠ k := by simpa using hne
        simp [updateAssoc, hne']
      · by_cases h : k' = k
        · simp only [updateAssoc, h, if_pos, List.mem_cons]
          exact Or.inr h2
        · simp only [updateAssoc, h, if_neg, not_false_iff, List.mem_cons]
          exact Or.inr (ih h2)

/-- The in-memory/on-disk consistency invariant of spec §3: every table
held in the session has a cache file named after it. -/
def consistentState (st : SMState) : Prop :=
  ∀ t ∈ st.tables, ∃ df, (t.1 ++ ".parquet", df) ∈ st.cacheFiles

theorem add_table_fixed_consistent (st : SMState) (f : UploadedFile)
    (h : consistentState st) : consistentState (add_table_fixed st f) := by
  unfold add_table_fixed
  rcases hcsv : f.csv with e | df
  · exact h
  · intro t ht
    simp only at ht
    rcases mem_updateAssoc _ _ _ _ ht with h1 | ht'
    · subst h1
      exact ⟨df, self_mem_updateAssoc _ _ _⟩
    · rcases h t ht' with ⟨df', hdf'⟩
      by_cases hk : t.1 ++ ".parquet" = get_table_name_fixed f.name ++ ".parquet"
      · exact ⟨df, hk ▸ self_mem_updateAssoc _ _ _⟩
      · exact ⟨df', mem_updateAssoc_of_ne _ _ _ _ hdf' hk⟩

/-! ## Claim theorems -/

/-- Claim C4: for every input text, `rate_query_complexity` equals the
reference formula of spec §4.3 (start at 1, add the capped JOIN count,
add the capped SELECT-minus-one count, add 1 for window-function
keywords, add 1 for complex-clause keywords, case-insensitively, clamped
to `[1, 5]`), its result always lies in `[1, 5]`, and the empty string
maps to 1. -/
theorem rate_query_complexity_correct :
    (∀ q : String, rate_query_complexity q = spec_complexity q ∧
      1 ≤ rate_query_complexity q ∧ rate_query_complexity q ≤ 5) ∧
    rate_query_complexity "" = 1 := by
  constructor
  · intro q
    refine ⟨?_, ?_, ?_⟩
    · simp only [rate_query_complexity, spec_complexity, clamp,
        List.any_cons, List.any_nil, Bool.or_false, Bool.or_assoc]
    · simp only [rate_query_complexity]
      exact le_min (le_max_right _ _) (by norm_num)
    · simp only [rate_query_complexity]
      exact min_le_right _ _
  · decide

/-- Claim C5: the Deep-Analysis Trigger is a pure predicate that holds
iff the query text contains one of the six keywords HAVING, GROUP BY,
JOIN, WHERE, WITH, CASE as a case-insensitive substring; it is false on
`SELECT * FROM t` and true on `SELECT * FROM t WHERE x=1`. -/
theorem should_do_deep_analysis_correct :
    (∀ q : String, should_do_deep_analysis q = true ↔
      ∃ kw ∈ deepKeywords, containsSub kw (upperList q) = true) ∧
    should_do_deep_analysis "SELECT * FROM t" = false ∧
    should_do_deep_analysis "SELECT * FROM t WHERE x=1" = true := by
  refine ⟨fun q => ?_, by decide, by decide⟩
  simp [should_do_deep_analysis, List.any_eq_true]

/-- Claim C10: `clear_all` removes from the cache directory exactly the
files whose names end in `.parquet`; every other file survives
unchanged, and the directory itself is not deleted. -/
theorem clear_all_frame :
    ∀ (st : SMState) (f : String × Df),
      (f ∈ (clear_all st).cacheFiles ↔
        f ∈ st.cacheFiles ∧ listEnds ".parquet".data f.1.data = false) ∧
      (clear_all st).dirExists = st.dirExists := by
  intro st f
  constructor
  · simp [clear_all, List.mem_filter, Bool.not_eq_true']
  · rfl

/-- Claim C2: in every run of either orchestrator handler, an `executed`
step on a query only ever occurs after a successful `validated` step on
that same query, for every parser behaviour, candidate list, schema
state and execution outcome. -/
theorem execution_only_after_validation :
    ∀ (p : ParseFn) (cands : List String) (schemaLoaded execFails : Bool)
      (query choice : String),
      execAfterValidation [] (analyze_trace p cands schemaLoaded query choice) = true ∧
      execAfterValidation []
        (validation_trace p cands schemaLoaded execFails query choice) = true := by
  intro p cands sl ef q ch
  constructor
  · simp only [analyze_trace]
    split
    · rfl
    · split
      · cases sl <;> simp [execAfterValidation, List.contains]
      · simp [execAfterValidation]
  · simp only [validation_trace]
    split
    · rfl
    · split
      · rfl
      · split
        · simp [execAfterValidation]
        · cases ef <;> simp [execAfterValidation, List.contains]

/-- Claim C1 as stated is false: `validate_query` (and `validate_sql`)
succeeds on the query `UPDATE t SET a = 1`, whose text contains neither
SELECT nor FROM, under a parser that accepts this valid statement; no
branch of either function produces a "missing required clause" error
kind. -/
theorem validate_accepts_query_without_select_from :
    validate_query updateOnlyParse "UPDATE t SET a = 1" "mysql" = (true, none) ∧
    validate_sql updateOnlyParse "UPDATE t SET a = 1" (some "mysql") = (true, none) ∧
    containsSub "SELECT".data (upperList "UPDATE t SET a = 1") = false ∧
    containsSub "FROM".data (upperList "UPDATE t SET a = 1") = false := by
  refine ⟨by decide, by decide, by decide, by decide⟩

/-- Claim C1 amended: syntax validation succeeds exactly when the
external parser accepts the query, and on failure it returns the parser
diagnostic verbatim; there is no separate "missing required clause"
check, so a query lacking SELECT and FROM passes validation whenever it
parses.  `validate_sql` behaves identically to `validate_query`. -/
theorem validate_query_mirrors_parse_outcome (p : ParseFn) (query dialect : String) :
    (validate_query p query dialect = (true, none) ↔
      p query (some dialect) = Except.ok ()) ∧
    (∀ e, p query (some dialect) = Except.error e →
      validate_query p query dialect = (false, some e)) ∧
    validate_sql p query (some dialect) = validate_query p query dialect := by
  rcases h : p query (some dialect) with e | u
  · refine ⟨?_, ?_, ?_⟩
    · simp [validate_query, h]
    · intro e' he'
      injection he' with he''
      subst he''
      simp [validate_query, h]
    · simp [validate_query, validate_sql, h]
  · refine ⟨?_, ?_, ?_⟩
    · simp [validate_query, h]
    · intro e' he'
      simp at he'
    · simp [validate_query, validate_sql, h]

/-- Witness for the amended claim C1 at a concrete failing parse. -/
theorem validate_query_mirrors_parse_outcome_witness :
    validate_query updateOnlyParse "SELECT" "mysql" = (false, some "ParseError") :=
  (validate_query_mirrors_parse_outcome updateOnlyParse "SELECT" "mysql").2.1
    "ParseError" (by rfl)

/-- Claim C9 as stated is false: with no credential in the environment,
module startup still succeeds (its body only loads `.env` and defines
the function), while each individual call of `get_llm_response` raises
the missing-token error anew. -/
theorem missing_token_not_a_startup_failure :
    llm_module_startup id emptyEnv = Except.ok emptyEnv ∧
    get_llm_response emptyEnv (fun _ _ => LlmResp.other) "explain this error" =
      Except.error "Hugging Face token not found in environment variables" :=
  ⟨rfl, rfl⟩

/-- Claim C9 amended: absence of the LLM credential is a per-request
error, not a startup one: startup never fails, and every call of
`get_llm_response` under an environment with no `HF_TOKEN` fails with
the missing-token error. -/
theorem missing_token_fails_each_request (dotenv : Env → Env) (env : Env)
    (call : String → String → LlmResp) (prompt model : String)
    (h : env "HF_TOKEN" = none) :
    (llm_module_startup dotenv env).isOk = true ∧
    get_llm_response env call prompt model =
      Except.error "Hugging Face token not found in environment variables" := by
  exact ⟨rfl, by simp [get_llm_response, h]⟩

/-- Witness for the amended claim C9 at the empty environment. -/
theorem missing_token_fails_each_request_witness :
    (llm_module_startup id emptyEnv).isOk = true ∧
    get_llm_response emptyEnv (fun _ _ => LlmResp.other) "correct this query" "m" =
      Except.error "Hugging Face token not found in environment variables" :=
  missing_token_fails_each_request id emptyEnv (fun _ _ => LlmResp.other)
    "correct this query" "m" rfl

/-- Claim C6 as stated is false: under a parser behaviour where the
dialect-agnostic mode rejects a query that the mysql candidate accepts,
`detect_sql_dialect` returns "Generic" although a candidate dialect
parses the query, because the initial dialect-agnostic attempt fails and
the candidate loop is never reached. -/
theorem detect_generic_despite_parsing_candidate :
    detect_sql_dialect mysqlOnlyParse ["mysql", "postgres", "sqlite", "tsql", "oracle"]
      "SELECT `x` FROM t" = "Generic" ∧
    parseOk mysqlOnlyParse "SELECT `x` FROM t" (some "mysql") = true := by
  refine ⟨by decide, by decide⟩

/-- Claim C6 amended: `detect_sql_dialect` first attempts a
dialect-agnostic parse and returns "Generic" immediately when that
fails; otherwise it returns the first candidate dialect under which the
query parses, and "Generic" when no candidate parses. -/
theorem detect_sql_dialect_first_success (p : ParseFn) (cands : List String) (q : String) :
    detect_sql_dialect p cands q = detect_spec p cands q ∧
    (parseOk p q none = false → detect_sql_dialect p cands q = "Generic") ∧
    (∀ d, parseOk p q none = true → firstParsing p q cands = some d →
      detect_sql_dialect p cands q = d ∧ parseOk p q (some d) = true ∧ d ∈ cands) ∧
    (parseOk p q none = true → firstParsing p q cands = none →
      detect_sql_dialect p cands q = "Generic") := by
  have hfind := find?_eq_firstParsing p q cands
  refine ⟨?_, ?_, ?_, ?_⟩
  · unfold detect_sql_dialect detect_spec
    rcases h : parseOk p q none with _ | _
    · simp
    · simp [hfind]
  · intro h
    unfold detect_sql_dialect
    simp [h]
  · intro d hgen hfirst
    have hd := List.find?_some (hfind ▸ hfirst)
    have hmem := List.mem_of_find?_eq_some (hfind ▸ hfirst)
    refine ⟨?_, hd, hmem⟩
    unfold detect_sql_dialect
    simp [hgen, hfind, hfirst]
  · intro hgen hnone
    unfold detect_sql_dialect
    simp [hgen, hfind, hnone]

/-- Witness for the amended claim C6: with a parser that accepts
everything, the detector returns the first candidate. -/
theorem detect_sql_dialect_first_success_witness :
    detect_sql_dialect alwaysParse ["postgres", "mysql"] "SELECT 1" = "postgres" ∧
    parseOk alwaysParse "SELECT 1" (some "postgres") = true ∧
    "postgres" ∈ ["postgres", "mysql"] :=
  (detect_sql_dialect_first_success alwaysParse ["postgres", "mysql"] "SELECT 1").2.2.1
    "postgres" (by decide) (by decide)

/-- Claim C3 concerns behaviour the code cannot reach: `add_table`
always raises `NameError` (src/utils/schema_manager.py calls `re.sub`
without importing `re`), so after uploading `sales.csv` and `orders.csv`
the schema is still empty and no consistency between memory and disk is
ever established by an upload. -/
theorem add_table_name_error_blocks_schema :
    (add_table (add_table emptySM salesCsv).1 ordersCsv).1 = emptySM ∧
    get_schema (add_table (add_table emptySM salesCsv).1 ordersCsv).1 = [] ∧
    (add_table (add_table emptySM salesCsv).1 ordersCsv).2 =
      Except.error "NameError: name re is not defined" := by
  refine ⟨rfl, rfl, rfl⟩

/-- Claim C8 concerns behaviour the code cannot reach: uploading the
same file twice does not leave one overwritten table but raises
`NameError` on each call, leaving the schema empty both times. -/
theorem add_table_twice_name_error :
    (add_table emptySM salesCsv).1 = emptySM ∧
    (add_table emptySM salesCsv).2 = Except.error "NameError: name re is not defined" ∧
    (add_table (add_table emptySM salesCsv).1 salesCsv).1 = emptySM ∧
    get_schema (add_table (add_table emptySM salesCsv).1 salesCsv).1 = [] := by
  refine ⟨rfl, rfl, rfl, rfl⟩

theorem fenceSub_tagged (body : List Char) :
    fenceSub ("```sql".data ++ (body ++ "```".data)) = body := by
  have htake : (("```sql".data ++ (body ++ "```".data)).take 6) = "```sql".data :=
    List.take_left' (by decide)
  have hdrop : (("```sql".data ++ (body ++ "```".data)).drop 6) = body ++ "```".data :=
    List.drop_left' (by decide)
  have hlow : ("```sql".data.map lowChar == "```sql".data) = true := by decide
  have hends : listEnds "```".data (body ++ "```".data) = true := by
    unfold listEnds
    rw [List.length_append, Nat.add_sub_cancel, List.drop_left]
    simp
  simp only [fenceSub, htake, hdrop, hlow, if_true]
  rw [hends]
  simp only [if_true]
  rw [List.length_append, show ("```".data.length) = 3 from by decide,
    Nat.add_sub_cancel, List.take_left]

theorem mem_stripList (x : List Char) (c : Char) (hc : c ∈ stripList x) : c ∈ x := by
  unfold stripList at hc
  rw [List.mem_reverse] at hc
  have h1 : c ∈ (x.dropWhile isPyWs).reverse :=
    (List.dropWhile_suffix isPyWs).subset hc
  rw [List.mem_reverse] at h1
  exact (List.dropWhile_suffix isPyWs).subset h1

/-- Claim C7 as stated is false: a raw LLM response that begins with a
bare fence token (no language tag) keeps its leading fence, because the
substitution only removes the tagged fence at the start of the string;
the output of `correct_sql` here still begins with a fence marker. -/
theorem correct_sql_keeps_untagged_fence :
    correct_sql (fun _ => "```\nSELECT 1\n```") "q" "e" "mysql" "" = "```\nSELECT 1" ∧
    starts "```".data "```\nSELECT 1\n```".data = true ∧
    starts "```".data
      (correct_sql (fun _ => "```\nSELECT 1\n```") "q" "e" "mysql" "").data = true := by
  refine ⟨by decide, by decide, by decide⟩

/-- Claim C7 amended: the post-processing removes a leading fence only
when it carries the `sql` language tag and a trailing fence only when it
is bare, and it strips surrounding whitespace; thus for a raw response
of the canonical shape (a tagged opening fence, a backtick-free body and
a bare closing fence) the output is the stripped body and neither begins
nor ends with a fence marker, and for every raw response the output has
no surrounding whitespace. -/
theorem correct_sql_fence_cleanup (raw body q e d i : String)
    (hb : '`' ∉ body.data) :
    correct_sql (fun _ => "```sql" ++ body ++ "```") q e d i = pyStrip body ∧
    starts "```".data
      (correct_sql (fun _ => "```sql" ++ body ++ "```") q e d i).data = false ∧
    listEnds "```".data
      (correct_sql (fun _ => "```sql" ++ body ++ "```") q e d i).data = false ∧
    noSurroundingWs (correct_sql (fun _ => raw) q e d i).data = true := by
  have hdata : ("```sql" ++ body ++ "```").data =
      "```sql".data ++ (body.data ++ "```".data) := by
    rw [String.data_append, String.data_append, List.append_assoc]
  have hout : correct_sql (fun _ => "```sql" ++ body ++ "```") q e d i = pyStrip body := by
    show pyStrip ⟨fenceSub ("```sql" ++ body ++ "```").data⟩ = pyStrip body
    rw [hdata, fenceSub_tagged]
  have houtdata : (correct_sql (fun _ => "```sql" ++ body ++ "```") q e d i).data =
      stripList body.data := by rw [hout]; rfl
  refine ⟨hout, ?_, ?_, ?_⟩
  · rw [houtdata]
    by_contra hs
    rw [Bool.not_eq_false] at hs
    unfold starts at hs
    rw [beq_iff_eq] at hs
    have h3 : '`' ∈ (stripList body.data).take "```".data.length := by
      rw [hs]; decide
    exact hb (mem_stripList _ _ (List.take_subset _ _ h3))
  · rw [houtdata]
    by_contra hs
    rw [Bool.not_eq_false] at hs
    unfold listEnds at hs
    rw [beq_iff_eq] at hs
    have h3 : '`' ∈ (stripList body.data).drop
        ((stripList body.data).length - "```".data.length) := by
      rw [hs]; decide
    exact hb (mem_stripList _ _ (List.drop_subset _ _ h3))
  · show noSurroundingWs (pyStrip ⟨fenceSub raw.data⟩).data = true
    exact stripList_noWs _

/-- Witness for the amended claim C7 at a concrete fenced response. -/
theorem correct_sql_fence_cleanup_witness :
    correct_sql (fun _ => "```sql" ++ "\nSELECT 1\n" ++ "```") "q" "e" "d" "" =
      pyStrip "\nSELECT 1\n" ∧
    starts "```".data
      (correct_sql (fun _ => "```sql" ++ "\nSELECT 1\n" ++ "```") "q" "e" "d" "").data
        = false ∧
    listEnds "```".data
      (correct_sql (fun _ => "```sql" ++ "\nSELECT 1\n" ++ "```") "q" "e" "d" "").data
        = false ∧
    noSurroundingWs (correct_sql (fun _ => "raw output") "q" "e" "d" "").data = true :=
  correct_sql_fence_cleanup "raw output" "\nSELECT 1\n" "q" "e" "d" "" (by decide)

end EcommerceAnalysis
